import Mathlib

/-!
Verification of the workspace-operator reconciliation core
(`controllers/workspace_controller.go`).

The controller's `Reconcile` function is embedded as a pure function from a
possibly-absent `WorkspaceSpec` and a snapshot of the live cluster state (the
eight managed sub-resources at their derived names) to a pass output: the
resulting live state, the list of create/update calls the pass issued, and the
pass result (requeue delay or surfaced error).  The Go runtime panic that the
code can hit when reading `Subjects[0]` of an empty subject list is modelled by
an `Option` result: `none` stands for the panic.

The Kubernetes client store is modelled as always succeeding on create/update
(fault injection on the store is outside the claims), and
`ctrl.SetControllerReference` is modelled as always succeeding.  Quantities are
modelled exactly (integer times a power of ten), with `parseQuantity` and
`Quantity.cmp` embedding the numeric semantics of
`k8s.io/apimachinery/pkg/api/resource.ParseQuantity` / `Quantity.Cmp` on the
grammar the operator relies on (plain decimals with decimal-SI, binary-SI or
decimal-exponent suffixes).
-/

/-- Go `map[string]string`, embedded as an association list.
Go guarantees distinct keys; where a proof needs that, it is the explicit
`LMapWF` hypothesis. -/
abbrev LMap := List (String × String)

/-- Key lookup in an association list: Go `value, ok := m[k]`. -/
def lmapGet (m : LMap) (k : String) : Option String :=
  match m with
  | [] => none
  | (k', v) :: rest => if k' = k then some v else lmapGet rest k

/-- Keys are distinct, as they are in any Go map. -/
def LMapWF (m : LMap) : Prop := (m.map Prod.fst).Nodup

instance (m : LMap) : Decidable (LMapWF m) := by
  unfold LMapWF; infer_instance

/-- Number of desired keys whose live value is absent or different: in the Go
label/annotation loops, each such key triggers one `r.Update` call. -/
def mismatchCount (desired live : LMap) : Nat :=
  desired.countP (fun kv => decide (lmapGet live kv.1 ≠ some kv.2))

/-- Embedding of the Go drift-correction loop
`for k, v := range desired { if live[k] missing or different { obj.Map = desired; r.Update(obj) } }`:
returns the final map carried by the object and the number of `Update` calls
issued.  Note the comparisons run against the map captured before the loop
(`live`), exactly as the Go code captures `namespaceLabels` etc. before
mutating the object. -/
def syncMapStep (desired live : LMap) : LMap × Nat :=
  desired.foldl
    (fun acc kv => if lmapGet live kv.1 = some kv.2 then acc else (desired, acc.2 + 1))
    (live, 0)

/-- Embeds `k8s.io/apimachinery/pkg/api/resource.Quantity`, exact value
`value * 10 ^ scale`. -/
structure Quantity where
  value : Int
  scale : Int
deriving DecidableEq, Repr

/-- The quantity as an integer after rescaling to the scale `s ≤ scale`. -/
def Quantity.toScaled (q : Quantity) (s : Int) : Int :=
  q.value * 10 ^ (q.scale - s).toNat

/-- Embeds `Quantity.Cmp`: numeric three-way comparison, -1 / 0 / 1. -/
def Quantity.cmp (a b : Quantity) : Int :=
  let s := min a.scale b.scale
  let x := a.toScaled s
  let y := b.toScaled s
  if x < y then -1 else if x = y then 0 else 1

/-- Numeric value of a digit list, most significant first. -/
def digitsVal (l : List Char) : Nat :=
  l.foldl (fun a c => a * 10 + (c.toNat - '0'.toNat)) 0

/-- Suffix of a quantity literal: returns `(binary exponent, decimal scale)`
so that the parsed value is multiplied by `2 ^ bexp * 10 ^ dscale`.
Decimal-SI suffixes (n, u, m, k, M, G, T, P, E), binary-SI suffixes
(Ki .. Ei) and a decimal exponent (`e`/`E` followed by a signed integer)
are accepted; anything else is a parse error. -/
def quantitySuffix : List Char → Option (Nat × Int)
  | [] => some (0, 0)
  | ['n'] => some (0, -9)
  | ['u'] => some (0, -6)
  | ['m'] => some (0, -3)
  | ['k'] => some (0, 3)
  | ['M'] => some (0, 6)
  | ['G'] => some (0, 9)
  | ['T'] => some (0, 12)
  | ['P'] => some (0, 15)
  | ['E'] => some (0, 18)
  | ['K', 'i'] => some (10, 0)
  | ['M', 'i'] => some (20, 0)
  | ['G', 'i'] => some (30, 0)
  | ['T', 'i'] => some (40, 0)
  | ['P', 'i'] => some (50, 0)
  | ['E', 'i'] => some (60, 0)
  | c :: rest =>
    if c = 'e' ∨ c = 'E' then
      let (sgn, ds) : Int × List Char :=
        match rest with
        | '+' :: ds => (1, ds)
        | '-' :: ds => (-1, ds)
        | ds => (1, ds)
      if ds.isEmpty ∨ ¬ ds.all Char.isDigit then none
      else some (0, sgn * (Int.ofNat (digitsVal ds)))
    else none

/-- Embeds `resource.ParseQuantity` on the grammar used by the operator:
optional sign, digits with an optional decimal fraction, optional suffix. -/
def parseQuantity (str : String) : Option Quantity :=
  let cs := str.toList
  let (sgn, cs1) : Int × List Char :=
    match cs with
    | '+' :: r => (1, r)
    | '-' :: r => (-1, r)
    | r => (1, r)
  let intPart := cs1.takeWhile Char.isDigit
  let afterInt := cs1.dropWhile Char.isDigit
  let (fracPart, afterFrac) : List Char × List Char :=
    match afterInt with
    | '.' :: r => (r.takeWhile Char.isDigit, r.dropWhile Char.isDigit)
    | r => ([], r)
  if intPart.isEmpty ∧ fracPart.isEmpty then none
  else
    match quantitySuffix afterFrac with
    | none => none
    | some (bexp, dscale) =>
      some { value := sgn * Int.ofNat (digitsVal (intPart ++ fracPart) * 2 ^ bexp),
             scale := dscale - fracPart.length }

/-- Embeds `rbacv1.Subject`. -/
structure Subject where
  kind : String
  name : String
  apiGroup : String
deriving DecidableEq, Repr

/-- Embeds `rbacv1.RoleRef`. -/
structure RoleRef where
  kind : String
  apiGroup : String
  name : String
deriving DecidableEq, Repr

/-- Embeds `rbacv1.PolicyRule`. -/
structure PolicyRule where
  verbs : List String
  apiGroups : List String
  resources : List String
deriving DecidableEq, Repr

/-- Embeds `corev1.Namespace`, the fields the controller touches. -/
structure NamespaceRes where
  name : String
  labels : LMap
  annotations : LMap
  finalizers : List String
deriving DecidableEq, Repr

/-- Embeds `corev1.ResourceQuota`: the three hard-limit entries the controller reads
and writes (`cpu`, `memory`, `requests.storage`).  Go field `Namespace` is
`nsName` here (`namespace` is a Lean keyword). -/
structure ResourceQuotaRes where
  name : String
  nsName : String
  labels : LMap
  annotations : LMap
  hardCpu : Quantity
  hardMemory : Quantity
  hardStorage : Quantity
deriving DecidableEq, Repr

/-- Embeds `rbacv1.Role`. -/
structure RoleRes where
  name : String
  nsName : String
  labels : LMap
  annotations : LMap
  rules : List PolicyRule
deriving DecidableEq, Repr

/-- Embeds `rbacv1.RoleBinding`. -/
structure RoleBindingRes where
  name : String
  nsName : String
  labels : LMap
  annotations : LMap
  subjects : List Subject
  roleRef : RoleRef
deriving DecidableEq, Repr

/-- Embeds `WorkspaceSpec.Resources`: the three quantity strings. -/
structure WorkspaceResources where
  cpu : String
  memory : String
  disk : String
deriving DecidableEq, Repr

/-- Embeds `WorkspaceSpec.Users`. -/
structure WorkspaceUsers where
  admin : String
  editor : String
  viewer : String
deriving DecidableEq, Repr

/-- Embeds `WorkspaceSpec` (api/v1alpha1). -/
structure WorkspaceSpec where
  name : String
  labels : LMap
  annotations : LMap
  resources : WorkspaceResources
  users : WorkspaceUsers
deriving DecidableEq, Repr

/-- Snapshot of the eight managed sub-resources at their derived names
(`none` = the store's get returns not-found). -/
structure ClusterState where
  ns : Option NamespaceRes
  quota : Option ResourceQuotaRes
  adminRole : Option RoleRes
  editorRole : Option RoleRes
  viewerRole : Option RoleRes
  adminRB : Option RoleBindingRes
  editorRB : Option RoleBindingRes
  viewerRB : Option RoleBindingRes
deriving DecidableEq, Repr

def emptyState : ClusterState :=
  ⟨none, none, none, none, none, none, none, none⟩

/-- Embeds `namespaceForWorkspace`. -/
def namespaceForWorkspace (w : WorkspaceSpec) : NamespaceRes :=
  { name := w.name
    labels := w.labels
    annotations := w.annotations
    finalizers := ["kubernetes"] }

/-- Embeds `resourceQuotaCPUForWorkspace`. -/
def resourceQuotaCPUForWorkspace (w : WorkspaceSpec) : Except String Quantity :=
  match parseQuantity w.resources.cpu with
  | none => .error "cpu quantity parse error"
  | some q => .ok q

/-- Embeds `resourceQuotaMemoryForWorkspace`. -/
def resourceQuotaMemoryForWorkspace (w : WorkspaceSpec) : Except String Quantity :=
  match parseQuantity w.resources.memory with
  | none => .error "memory quantity parse error"
  | some q => .ok q

/-- Embeds `resourceQuotaStorageForWorkspace`. -/
def resourceQuotaStorageForWorkspace (w : WorkspaceSpec) : Except String Quantity :=
  match parseQuantity w.resources.disk with
  | none => .error "disk quantity parse error"
  | some q => .ok q

/-- Embeds `resourceQuotaForWorkspace`: parses cpu, then memory, then disk; the first
failure is the error of the whole projection. -/
def resourceQuotaForWorkspace (w : WorkspaceSpec) : Except String ResourceQuotaRes :=
  match resourceQuotaCPUForWorkspace w with
  | .error e => .error e
  | .ok cpu =>
    match resourceQuotaMemoryForWorkspace w with
    | .error e => .error e
    | .ok memory =>
      match resourceQuotaStorageForWorkspace w with
      | .error e => .error e
      | .ok disk =>
        .ok { name := w.name ++ "-quota"
              nsName := w.name
              labels := w.labels
              annotations := w.annotations
              hardCpu := cpu
              hardMemory := memory
              hardStorage := disk }

def rbacAPIGroup : String := "rbac.authorization.k8s.io"

/-- Embeds `adminRoleForWorkspace`. -/
def adminRoleForWorkspace (w : WorkspaceSpec) : RoleRes :=
  { name := w.name ++ "-admin"
    nsName := w.name
    labels := w.labels
    annotations := w.annotations
    rules := [{ verbs := ["get", "list", "watch", "create", "update", "patch", "delete"]
                apiGroups := [""]
                resources := ["*"] }] }

/-- Embeds `editorRoleForWorkspace`. -/
def editorRoleForWorkspace (w : WorkspaceSpec) : RoleRes :=
  { name := w.name ++ "-editor"
    nsName := w.name
    labels := w.labels
    annotations := w.annotations
    rules := [{ verbs := ["get", "list", "watch", "create", "update", "patch"]
                apiGroups := [""]
                resources := ["*"] }] }

/-- Embeds `viewerRoleForWorkspace`. -/
def viewerRoleForWorkspace (w : WorkspaceSpec) : RoleRes :=
  { name := w.name ++ "-viewer"
    nsName := w.name
    labels := w.labels
    annotations := w.annotations
    rules := [{ verbs := ["get", "list", "watch"]
                apiGroups := [""]
                resources := ["*"] }] }

/-- Embeds `adminRoleBindingForWorkspace`. -/
def adminRoleBindingForWorkspace (w : WorkspaceSpec) : RoleBindingRes :=
  { name := w.name ++ "-admin-rb"
    nsName := w.name
    labels := w.labels
    annotations := w.annotations
    subjects := [{ kind := "User", name := w.users.admin, apiGroup := rbacAPIGroup }]
    roleRef := { kind := "Role", apiGroup := rbacAPIGroup, name := w.name ++ "-admin" } }

/-- Embeds `editorRoleBindingForWorkspace`. -/
def editorRoleBindingForWorkspace (w : WorkspaceSpec) : RoleBindingRes :=
  { name := w.name ++ "-editor-rb"
    nsName := w.name
    labels := w.labels
    annotations := w.annotations
    subjects := [{ kind := "User", name := w.users.editor, apiGroup := rbacAPIGroup }]
    roleRef := { kind := "Role", apiGroup := rbacAPIGroup, name := w.name ++ "-editor" } }

/-- Embeds `viewerRoleBindingForWorkspace`. -/
def viewerRoleBindingForWorkspace (w : WorkspaceSpec) : RoleBindingRes :=
  { name := w.name ++ "-viewer-rb"
    nsName := w.name
    labels := w.labels
    annotations := w.annotations
    subjects := [{ kind := "User", name := w.users.viewer, apiGroup := rbacAPIGroup }]
    roleRef := { kind := "Role", apiGroup := rbacAPIGroup, name := w.name ++ "-viewer" } }

/-- Identifies which of the eight managed sub-resources a store call targets. -/
inductive ResKind
  | nsK | quotaK | adminRoleK | editorRoleK | viewerRoleK
  | adminRBK | editorRBK | viewerRBK
deriving DecidableEq, Repr

/-- A store write issued by the pass. -/
inductive WriteOp
  | createOp (k : ResKind)
  | updateOp (k : ResKind)
deriving DecidableEq, Repr

/-- Embeds `(ctrl.Result, error)` of the pass: `ok d` is a nil error with requeue
delay `d` seconds (`none` = no requeue), `err` is a surfaced error. -/
inductive RecResult
  | ok (requeueSeconds : Option Nat)
  | err (msg : String)
deriving DecidableEq, Repr

/-- What one reconciliation pass did: final live state, the store writes it
issued in order, and its returned result. -/
structure PassOutput where
  state : ClusterState
  writes : List WriteOp
  result : RecResult
deriving DecidableEq, Repr

/-- Embedding of the Go `if userName != b.Subjects[0].Name { b.Subjects[0].Name = userName; r.Update(&b) }`:
`none` is the index-out-of-range panic on an empty subject list. -/
def syncSubjectStep (u : String) (b : RoleBindingRes) (k : ResKind) :
    Option (RoleBindingRes × List WriteOp) :=
  match b.subjects with
  | [] => none
  | s0 :: rest =>
    if s0.name = u then some (b, [])
    else some ({ b with subjects := { s0 with name := u } :: rest }, [WriteOp.updateOp k])

/-- Embedding of `if q.Cmp(live) != 0 { hard[key] = q; r.Update(&rq) }`:
returns the final hard-limit value and whether an update call was issued. -/
def syncQuantityStep (q live : Quantity) : Quantity × Bool :=
  if Quantity.cmp q live = 0 then (live, false) else (q, true)

/-- Drift-correction tail of `Reconcile` (lines 306-491), reached when all
eight sub-resources were found: label sync on namespace, quota and the three
roles; annotation sync on namespace and quota; subject sync on the three
role bindings; quantity sync (memory, cpu, disk) on the quota.  `none` is the
panic on an empty subject list; a quantity parse failure aborts with the
updates made so far persisted. -/
def driftPhase (w : WorkspaceSpec) (s : ClusterState)
    (ns0 : NamespaceRes) (rq0 : ResourceQuotaRes)
    (ar0 er0 vr0 : RoleRes) (arb0 erb0 vrb0 : RoleBindingRes) : Option PassOutput :=
  let pNsL := syncMapStep w.labels ns0.labels
  let ns1 := { ns0 with labels := pNsL.1 }
  let pRqL := syncMapStep w.labels rq0.labels
  let rq1 := { rq0 with labels := pRqL.1 }
  let pArL := syncMapStep w.labels ar0.labels
  let ar1 := { ar0 with labels := pArL.1 }
  let pErL := syncMapStep w.labels er0.labels
  let er1 := { er0 with labels := pErL.1 }
  let pVrL := syncMapStep w.labels vr0.labels
  let vr1 := { vr0 with labels := pVrL.1 }
  let pNsA := syncMapStep w.annotations ns1.annotations
  let ns2 := { ns1 with annotations := pNsA.1 }
  let pRqA := syncMapStep w.annotations rq1.annotations
  let rq2 := { rq1 with annotations := pRqA.1 }
  let mapWrites :=
    List.replicate pNsL.2 (WriteOp.updateOp .nsK)
      ++ List.replicate pRqL.2 (WriteOp.updateOp .quotaK)
      ++ List.replicate pArL.2 (WriteOp.updateOp .adminRoleK)
      ++ List.replicate pErL.2 (WriteOp.updateOp .editorRoleK)
      ++ List.replicate pVrL.2 (WriteOp.updateOp .viewerRoleK)
      ++ List.replicate pNsA.2 (WriteOp.updateOp .nsK)
      ++ List.replicate pRqA.2 (WriteOp.updateOp .quotaK)
  match syncSubjectStep w.users.admin arb0 .adminRBK with
  | none => none
  | some (arb1, wA) =>
  match syncSubjectStep w.users.editor erb0 .editorRBK with
  | none => none
  | some (erb1, wE) =>
  match syncSubjectStep w.users.viewer vrb0 .viewerRBK with
  | none => none
  | some (vrb1, wV) =>
  let assemble := fun (rq : ResourceQuotaRes) =>
    { s with ns := some ns2, quota := some rq
             adminRole := some ar1, editorRole := some er1, viewerRole := some vr1
             adminRB := some arb1, editorRB := some erb1, viewerRB := some vrb1 }
  let writes0 := mapWrites ++ wA ++ wE ++ wV
  match parseQuantity w.resources.memory with
  | none => some ⟨assemble rq2, writes0, .err "memory quantity parse error"⟩
  | some qm =>
    let stM := syncQuantityStep qm rq2.hardMemory
    let rq3 := { rq2 with hardMemory := stM.1 }
    let writes1 := writes0 ++ (if stM.2 then [WriteOp.updateOp .quotaK] else [])
    match parseQuantity w.resources.cpu with
    | none => some ⟨assemble rq3, writes1, .err "cpu quantity parse error"⟩
    | some qc =>
      let stC := syncQuantityStep qc rq3.hardCpu
      let rq4 := { rq3 with hardCpu := stC.1 }
      let writes2 := writes1 ++ (if stC.2 then [WriteOp.updateOp .quotaK] else [])
      match parseQuantity w.resources.disk with
      | none => some ⟨assemble rq4, writes2, .err "disk quantity parse error"⟩
      | some qd =>
        let stD := syncQuantityStep qd rq4.hardStorage
        let rq5 := { rq4 with hardStorage := stD.1 }
        let writes3 := writes2 ++ (if stD.2 then [WriteOp.updateOp .quotaK] else [])
        some ⟨assemble rq5, writes3, .ok (some 3)⟩

/-- One reconciliation pass (`Reconcile`): the workspace get (`none` input =
not-found, successful no-op), then the eight existence checks in order
(namespace, quota, admin/editor/viewer role, admin/editor/viewer binding),
each absent resource created from the projector with an immediate 3-second
requeue, then the drift-correction tail. -/
def reconcile (ws : Option WorkspaceSpec) (s : ClusterState) : Option PassOutput :=
  match ws with
  | none => some ⟨s, [], .ok none⟩
  | some w =>
    match s.ns with
    | none =>
      some ⟨{ s with ns := some (namespaceForWorkspace w) }, [.createOp .nsK], .ok (some 3)⟩
    | some ns0 =>
    match s.quota with
    | none =>
      match resourceQuotaForWorkspace w with
      | .error e => some ⟨s, [], .err e⟩
      | .ok rq => some ⟨{ s with quota := some rq }, [.createOp .quotaK], .ok (some 3)⟩
    | some rq0 =>
    match s.adminRole with
    | none =>
      some ⟨{ s with adminRole := some (adminRoleForWorkspace w) },
            [.createOp .adminRoleK], .ok (some 3)⟩
    | some ar0 =>
    match s.editorRole with
    | none =>
      some ⟨{ s with editorRole := some (editorRoleForWorkspace w) },
            [.createOp .editorRoleK], .ok (some 3)⟩
    | some er0 =>
    match s.viewerRole with
    | none =>
      some ⟨{ s with viewerRole := some (viewerRoleForWorkspace w) },
            [.createOp .viewerRoleK], .ok (some 3)⟩
    | some vr0 =>
    match s.adminRB with
    | none =>
      some ⟨{ s with adminRB := some (adminRoleBindingForWorkspace w) },
            [.createOp .adminRBK], .ok (some 3)⟩
    | some arb0 =>
    match s.editorRB with
    | none =>
      some ⟨{ s with editorRB := some (editorRoleBindingForWorkspace w) },
            [.createOp .editorRBK], .ok (some 3)⟩
    | some erb0 =>
    match s.viewerRB with
    | none =>
      some ⟨{ s with viewerRB := some (viewerRoleBindingForWorkspace w) },
            [.createOp .viewerRBK], .ok (some 3)⟩
    | some vrb0 =>
      driftPhase w s ns0 rq0 ar0 er0 vr0 arb0 erb0 vrb0

/-- Chain `n` reconciliation passes with no external interference between
them; `none` if some pass panics. -/
def runPasses (w : WorkspaceSpec) : Nat → ClusterState → Option ClusterState
  | 0, s => some s
  | n + 1, s =>
    match reconcile (some w) s with
    | none => none
    | some out => runPasses w n out.state

/-- The first absent sub-resource in the fixed check order of the pass. -/
def firstAbsent (s : ClusterState) : Option ResKind :=
  if s.ns.isNone then some .nsK
  else if s.quota.isNone then some .quotaK
  else if s.adminRole.isNone then some .adminRoleK
  else if s.editorRole.isNone then some .editorRoleK
  else if s.viewerRole.isNone then some .viewerRoleK
  else if s.adminRB.isNone then some .adminRBK
  else if s.editorRB.isNone then some .editorRBK
  else if s.viewerRB.isNone then some .viewerRBK
  else none

/-- All eight managed sub-resources are present. -/
def allPresent (s : ClusterState) : Prop :=
  s.ns.isSome ∧ s.quota.isSome ∧ s.adminRole.isSome ∧ s.editorRole.isSome
    ∧ s.viewerRole.isSome ∧ s.adminRB.isSome ∧ s.editorRB.isSome ∧ s.viewerRB.isSome

instance (s : ClusterState) : Decidable (allPresent s) := by
  unfold allPresent; infer_instance

/-- State with exactly the creation result for resource kind `k` added. -/
def createdState (w : WorkspaceSpec) (s : ClusterState) : ResKind → ClusterState
  | .nsK => { s with ns := some (namespaceForWorkspace w) }
  | .quotaK => { s with quota := (resourceQuotaForWorkspace w).toOption }
  | .adminRoleK => { s with adminRole := some (adminRoleForWorkspace w) }
  | .editorRoleK => { s with editorRole := some (editorRoleForWorkspace w) }
  | .viewerRoleK => { s with viewerRole := some (viewerRoleForWorkspace w) }
  | .adminRBK => { s with adminRB := some (adminRoleBindingForWorkspace w) }
  | .editorRBK => { s with editorRB := some (editorRoleBindingForWorkspace w) }
  | .viewerRBK => { s with viewerRB := some (viewerRoleBindingForWorkspace w) }

/-- The fully-converged state: every sub-resource equals its projector output. -/
def canonicalState (w : WorkspaceSpec) (rq : ResourceQuotaRes) : ClusterState :=
  { ns := some (namespaceForWorkspace w)
    quota := some rq
    adminRole := some (adminRoleForWorkspace w)
    editorRole := some (editorRoleForWorkspace w)
    viewerRole := some (viewerRoleForWorkspace w)
    adminRB := some (adminRoleBindingForWorkspace w)
    editorRB := some (editorRoleBindingForWorkspace w)
    viewerRB := some (viewerRoleBindingForWorkspace w) }

/-- The cold-start spec of the scenario in the spec's testable properties. -/
def wsTest : WorkspaceSpec :=
  { name := "test"
    labels := []
    annotations := []
    resources := { cpu := "800m", memory := "256Mi", disk := "10Gi" }
    users := { admin := "a", editor := "b", viewer := "c" } }

/-- Same spec with an unparseable cpu quantity. -/
def wsBad : WorkspaceSpec :=
  { wsTest with resources := { cpu := "abc", memory := "256Mi", disk := "10Gi" } }

/-- State after the first pass on an empty cluster: only the namespace. -/
def nsOnlyState (w : WorkspaceSpec) : ClusterState :=
  { emptyState with ns := some (namespaceForWorkspace w) }

/-- Quota projected from `wsTest`. -/
def quotaTest : ResourceQuotaRes :=
  { name := "test-quota", nsName := "test", labels := [], annotations := []
    hardCpu := ⟨800, -3⟩, hardMemory := ⟨268435456, 0⟩, hardStorage := ⟨10737418240, 0⟩ }

/-- Live state reached from the empty cluster after 8 passes on `wsTest`. -/
def stateColdTest : ClusterState := (runPasses wsTest 8 emptyState).getD emptyState

/-- Live state reached from the empty cluster after 5 passes on `wsTest`. -/
def state5Test : ClusterState := (runPasses wsTest 5 emptyState).getD emptyState

/-- Frame of a Role across one pass: a role present before the pass is
present after it with the same name, namespace, annotations and policy
rules (only its labels are a drift target). -/
def roleFrame (before after : Option RoleRes) : Prop :=
  ∀ r0, before = some r0 →
    ∃ r1, after = some r1 ∧ r1.rules = r0.rules ∧ r1.annotations = r0.annotations
      ∧ r1.name = r0.name ∧ r1.nsName = r0.nsName

/-- Frame of a RoleBinding across one pass, relative to the desired subject
name `u`: labels, annotations, RoleRef, name and namespace are untouched,
and the subject list is either unchanged or changed only in the first
subject's name (kind, apiGroup and the tail stay). -/
def rbFrame (u : String) (before after : Option RoleBindingRes) : Prop :=
  ∀ b0, before = some b0 →
    ∃ b1, after = some b1 ∧ b1.labels = b0.labels ∧ b1.annotations = b0.annotations
      ∧ b1.roleRef = b0.roleRef ∧ b1.name = b0.name ∧ b1.nsName = b0.nsName
      ∧ (b1.subjects = b0.subjects
         ∨ ∃ s0 rest, b0.subjects = s0 :: rest
             ∧ b1.subjects = { s0 with name := u } :: rest)

/-- Frame of the ResourceQuota across one pass: name and namespace are
untouched (labels, annotations and hard limits are drift targets). -/
def quotaFrame (before after : Option ResourceQuotaRes) : Prop :=
  ∀ q0, before = some q0 →
    ∃ q1, after = some q1 ∧ q1.name = q0.name ∧ q1.nsName = q0.nsName

/-- Frame of the Namespace across one pass: name and finalizers are
untouched (labels and annotations are drift targets). -/
def nsFrame (before after : Option NamespaceRes) : Prop :=
  ∀ n0, before = some n0 →
    ∃ n1, after = some n1 ∧ n1.name = n0.name ∧ n1.finalizers = n0.finalizers

/-- Every sub-resource present before the pass is still present after it
(the pass never deletes anything). -/
def presMono (before after : ClusterState) : Prop :=
  (before.ns.isSome → after.ns.isSome) ∧ (before.quota.isSome → after.quota.isSome)
    ∧ (before.adminRole.isSome → after.adminRole.isSome)
    ∧ (before.editorRole.isSome → after.editorRole.isSome)
    ∧ (before.viewerRole.isSome → after.viewerRole.isSome)
    ∧ (before.adminRB.isSome → after.adminRB.isSome)
    ∧ (before.editorRB.isSome → after.editorRB.isSome)
    ∧ (before.viewerRB.isSome → after.viewerRB.isSome)

/-- The binding slot holds a binding whose subject list is empty (the shape
an external actor produces by emptying the subjects). -/
def rbEmptySubjects (o : Option RoleBindingRes) : Prop :=
  ∃ b, o = some b ∧ b.subjects = []

example : parseQuantity "800m" = some ⟨800, -3⟩ := by decide
example : parseQuantity "256Mi" = some ⟨268435456, 0⟩ := by decide
example : parseQuantity "10Gi" = some ⟨10737418240, 0⟩ := by decide
example : parseQuantity "abc" = none := by decide
example : Quantity.cmp ⟨800, -3⟩ ⟨8, -1⟩ = 0 := by decide

/-! ## Basic lemmas about the drift-correction primitives -/

theorem syncMapStep_foldl_aux (desired live : LMap) :
    ∀ (l : LMap) (m : LMap) (n : Nat),
      l.foldl
        (fun acc kv => if lmapGet live kv.1 = some kv.2 then acc else (desired, acc.2 + 1))
        (m, n)
      = (if l.countP (fun kv => decide (lmapGet live kv.1 ≠ some kv.2)) = 0 then m else desired,
         n + l.countP (fun kv => decide (lmapGet live kv.1 ≠ some kv.2)))
  | [], m, n => by simp
  | kv :: rest, m, n => by
    rw [List.foldl_cons, List.countP_cons]
    by_cases h : lmapGet live kv.1 = some kv.2
    · rw [if_pos h, syncMapStep_foldl_aux desired live rest m n]
      have hp : decide (lmapGet live kv.1 ≠ some kv.2) = false := by simp [h]
      rw [hp]
      simp
    · rw [if_neg h, syncMapStep_foldl_aux desired live rest desired (n + 1)]
      have hp : decide (lmapGet live kv.1 ≠ some kv.2) = true := by simp [h]
      rw [hp]
      simp only [Prod.mk.injEq, ite_self, if_true, Nat.add_eq_zero, and_false, if_false,
        Nat.succ_ne_zero, ite_false, true_and]
      omega

theorem syncMapStep_eq (desired live : LMap) :
    syncMapStep desired live
      = (if mismatchCount desired live = 0 then live else desired, mismatchCount desired live) := by
  unfold syncMapStep mismatchCount
  simpa using syncMapStep_foldl_aux desired live desired live 0

theorem mismatchCount_eq_zero {desired live : LMap} :
    mismatchCount desired live = 0 ↔ ∀ kv ∈ desired, lmapGet live kv.1 = some kv.2 := by
  unfold mismatchCount
  rw [List.countP_eq_zero]
  simp

theorem lmapGet_of_mem {m : LMap} (hwf : LMapWF m) {k v : String} (h : (k, v) ∈ m) :
    lmapGet m k = some v := by
  induction m with
  | nil => cases h
  | cons kv rest ih =>
    unfold LMapWF at hwf
    simp only [List.map_cons, List.nodup_cons] at hwf
    cases h with
    | head => simp [lmapGet]
    | tail _ hmem =>
      have hne : kv.1 ≠ k := by
        intro he
        exact hwf.1 (he ▸ List.mem_map.mpr ⟨(k, v), hmem, rfl⟩)
      simp only [lmapGet, if_neg hne]
      exact ih hwf.2 hmem

theorem mismatchCount_self {d : LMap} (hwf : LMapWF d) : mismatchCount d d = 0 :=
  mismatchCount_eq_zero.mpr fun kv hkv => lmapGet_of_mem hwf (by exact hkv)

theorem syncMapStep_of_zero {d live : LMap} (h : mismatchCount d live = 0) :
    syncMapStep d live = (live, 0) := by
  rw [syncMapStep_eq, h]; simp

theorem mismatchCount_syncResult {d live : LMap} (hwf : LMapWF d) :
    mismatchCount d (syncMapStep d live).1 = 0 := by
  rw [syncMapStep_eq]
  by_cases h : mismatchCount d live = 0
  · simp [h]
  · simpa [h] using mismatchCount_self hwf

theorem syncMapStep_idem {d live : LMap} (hwf : LMapWF d) :
    syncMapStep d (syncMapStep d live).1 = ((syncMapStep d live).1, 0) :=
  syncMapStep_of_zero (mismatchCount_syncResult hwf)

theorem Quantity.cmp_self (q : Quantity) : Quantity.cmp q q = 0 := by
  unfold Quantity.cmp; simp

theorem syncQuantityStep_of_zero {q live : Quantity} (h : Quantity.cmp q live = 0) :
    syncQuantityStep q live = (live, false) := by
  unfold syncQuantityStep; simp [h]

theorem syncQuantityStep_fst_cmp (q live : Quantity) :
    Quantity.cmp q (syncQuantityStep q live).1 = 0 := by
  unfold syncQuantityStep
  by_cases h : Quantity.cmp q live = 0
  · simp [h]
  · simpa [h] using Quantity.cmp_self q

theorem syncQuantityStep_idem (q live : Quantity) :
    syncQuantityStep q (syncQuantityStep q live).1 = ((syncQuantityStep q live).1, false) :=
  syncQuantityStep_of_zero (syncQuantityStep_fst_cmp q live)

theorem syncSubjectStep_nil {u : String} {b : RoleBindingRes} {k : ResKind}
    (hs : b.subjects = []) : syncSubjectStep u b k = none := by
  unfold syncSubjectStep
  rw [hs]

theorem syncSubjectStep_cons {u : String} {b : RoleBindingRes} {k : ResKind}
    {s0 : Subject} {rest : List Subject} (hs : b.subjects = s0 :: rest) :
    syncSubjectStep u b k =
      if s0.name = u then some (b, [])
      else some ({ b with subjects := { s0 with name := u } :: rest },
                 [WriteOp.updateOp k]) := by
  unfold syncSubjectStep
  rw [hs]

theorem syncSubjectStep_sound {u : String} {b b' : RoleBindingRes} {k : ResKind}
    {ws : List WriteOp} (h : syncSubjectStep u b k = some (b', ws)) :
    ∃ s0 rest, b.subjects = s0 :: rest
      ∧ b' = { b with subjects := { s0 with name := u } :: rest }
      ∧ (ws = [] ∨ ws = [WriteOp.updateOp k]) := by
  cases hs : b.subjects with
  | nil => rw [syncSubjectStep_nil hs] at h; cases h
  | cons s0 rest =>
    rw [syncSubjectStep_cons hs] at h
    by_cases hn : s0.name = u
    · rw [if_pos hn] at h
      cases h
      refine ⟨s0, rest, rfl, ?_, Or.inl rfl⟩
      cases b with
      | mk bn bns bl ba bs br =>
        cases s0
        simp only at hs
        simp [hs, ← hn]
    · rw [if_neg hn] at h
      cases h
      exact ⟨s0, rest, rfl, rfl, Or.inr rfl⟩

theorem syncSubjectStep_conv {u : String} {b : RoleBindingRes} {k : ResKind}
    {s0 : Subject} {rest : List Subject}
    (hs : b.subjects = s0 :: rest) (hn : s0.name = u) :
    syncSubjectStep u b k = some (b, []) := by
  rw [syncSubjectStep_cons hs, if_pos hn]

/-! ## Structure of the drift-correction tail -/

theorem driftPhase_converged (w : WorkspaceSpec) (s : ClusterState)
    (ns0 : NamespaceRes) (rq0 : ResourceQuotaRes)
    (ar0 er0 vr0 : RoleRes) (arb0 erb0 vrb0 : RoleBindingRes)
    (hNsL : mismatchCount w.labels ns0.labels = 0)
    (hRqL : mismatchCount w.labels rq0.labels = 0)
    (hArL : mismatchCount w.labels ar0.labels = 0)
    (hErL : mismatchCount w.labels er0.labels = 0)
    (hVrL : mismatchCount w.labels vr0.labels = 0)
    (hNsA : mismatchCount w.annotations ns0.annotations = 0)
    (hRqA : mismatchCount w.annotations rq0.annotations = 0)
    (sa : Subject) (ra : List Subject) (ha : arb0.subjects = sa :: ra)
    (hna : sa.name = w.users.admin)
    (se : Subject) (re : List Subject) (he : erb0.subjects = se :: re)
    (hne : se.name = w.users.editor)
    (sv : Subject) (rv : List Subject) (hv : vrb0.subjects = sv :: rv)
    (hnv : sv.name = w.users.viewer)
    (qm qc qd : Quantity)
    (hm : parseQuantity w.resources.memory = some qm)
    (hc : parseQuantity w.resources.cpu = some qc)
    (hd : parseQuantity w.resources.disk = some qd)
    (hcm : Quantity.cmp qm rq0.hardMemory = 0)
    (hcc : Quantity.cmp qc rq0.hardCpu = 0)
    (hcd : Quantity.cmp qd rq0.hardStorage = 0) :
    driftPhase w s ns0 rq0 ar0 er0 vr0 arb0 erb0 vrb0 =
      some ⟨{ s with ns := some ns0, quota := some rq0
                     adminRole := some ar0, editorRole := some er0, viewerRole := some vr0
                     adminRB := some arb0, editorRB := some erb0, viewerRB := some vrb0 },
            [], .ok (some 3)⟩ := by
  unfold driftPhase
  rw [syncMapStep_of_zero hNsL, syncMapStep_of_zero hRqL, syncMapStep_of_zero hArL,
    syncMapStep_of_zero hErL, syncMapStep_of_zero hVrL]
  simp only
  rw [syncMapStep_of_zero hNsA, syncMapStep_of_zero hRqA,
    syncSubjectStep_conv ha hna, syncSubjectStep_conv he hne, syncSubjectStep_conv hv hnv]
  simp only
  rw [hm, hc, hd]
  simp only [syncQuantityStep_of_zero hcm, syncQuantityStep_of_zero hcc,
    syncQuantityStep_of_zero hcd]
  simp

/-- C5: running the pass again immediately after a pass that completed its
full drift-correction tail (all eight sub-resources were present and the pass
returned success) issues no create or update call and leaves the state
unchanged: the state reached by a completed pass is a fixed point. -/
theorem reconcile_fixed_point (w : WorkspaceSpec) (s : ClusterState) (out : PassOutput)
    (hwfL : LMapWF w.labels) (hwfA : LMapWF w.annotations)
    (hall : allPresent s)
    (h1 : reconcile (some w) s = some out)
    (hok : out.result = .ok (some 3)) :
    reconcile (some w) out.state = some ⟨out.state, [], .ok (some 3)⟩ := by
  unfold allPresent at hall
  obtain ⟨hns, hq, har, her, hvr, harb, herb, hvrb⟩ := hall
  obtain ⟨ns0, hns⟩ := Option.isSome_iff_exists.mp hns
  obtain ⟨rq0, hq⟩ := Option.isSome_iff_exists.mp hq
  obtain ⟨ar0, har⟩ := Option.isSome_iff_exists.mp har
  obtain ⟨er0, her⟩ := Option.isSome_iff_exists.mp her
  obtain ⟨vr0, hvr⟩ := Option.isSome_iff_exists.mp hvr
  obtain ⟨arb0, harb⟩ := Option.isSome_iff_exists.mp harb
  obtain ⟨erb0, herb⟩ := Option.isSome_iff_exists.mp herb
  obtain ⟨vrb0, hvrb⟩ := Option.isSome_iff_exists.mp hvrb
  simp only [reconcile, hns, hq, har, her, hvr, harb, herb, hvrb] at h1
  simp only [driftPhase] at h1
  rcases hA : syncSubjectStep w.users.admin arb0 ResKind.adminRBK with _ | ⟨arb1, wA⟩
  · simp only [hA] at h1
    exact Option.noConfusion h1
  · simp only [hA] at h1
    rcases hE : syncSubjectStep w.users.editor erb0 ResKind.editorRBK with _ | ⟨erb1, wE⟩
    · simp only [hE] at h1
      exact Option.noConfusion h1
    · simp only [hE] at h1
      rcases hV : syncSubjectStep w.users.viewer vrb0 ResKind.viewerRBK with _ | ⟨vrb1, wV⟩
      · simp only [hV] at h1
        exact Option.noConfusion h1
      · simp only [hV] at h1
        rcases hm : parseQuantity w.resources.memory with _ | qm
        · simp only [hm] at h1
          cases h1
          simp at hok
        · simp only [hm] at h1
          rcases hc : parseQuantity w.resources.cpu with _ | qc
          · simp only [hc] at h1
            cases h1
            simp at hok
          · simp only [hc] at h1
            rcases hd : parseQuantity w.resources.disk with _ | qd
            · simp only [hd] at h1
              cases h1
              simp at hok
            · simp only [hd] at h1
              cases h1
              obtain ⟨sa, ra, hsa, harb1, hwA⟩ := syncSubjectStep_sound hA
              obtain ⟨se, re, hse, herb1, hwE⟩ := syncSubjectStep_sound hE
              obtain ⟨sv, rv, hsv, hvrb1, hwV⟩ := syncSubjectStep_sound hV
              subst harb1 herb1 hvrb1
              simp only [reconcile]
              exact driftPhase_converged w _ _ _ _ _ _ _ _ _
                (mismatchCount_syncResult hwfL) (mismatchCount_syncResult hwfL)
                (mismatchCount_syncResult hwfL) (mismatchCount_syncResult hwfL)
                (mismatchCount_syncResult hwfL)
                (mismatchCount_syncResult hwfA) (mismatchCount_syncResult hwfA)
                _ ra rfl rfl _ re rfl rfl _ rv rfl rfl
                qm qc qd hm hc hd
                (syncQuantityStep_fst_cmp qm rq0.hardMemory)
                (syncQuantityStep_fst_cmp qc rq0.hardCpu)
                (syncQuantityStep_fst_cmp qd rq0.hardStorage)

theorem reconcile_fixed_point_witness :
    reconcile (some wsTest) (PassOutput.mk stateColdTest [] (RecResult.ok (some 3))).state
      = some ⟨(PassOutput.mk stateColdTest [] (RecResult.ok (some 3))).state, [],
              .ok (some 3)⟩ :=
  reconcile_fixed_point wsTest stateColdTest ⟨stateColdTest, [], .ok (some 3)⟩
    (by decide) (by decide) (by decide) (by decide) (by decide)

/-- C1 (counterexample): with an unparseable cpu quantity, ten passes from the
empty cluster create only the namespace — the quota, the three roles and the
three bindings are never created, refuting that all sub-resources other than
the quota still converge; every pass after the first surfaces the parse error
with no writes. -/
theorem malformed_quantity_counterexample :
    runPasses wsBad 10 emptyState = some (nsOnlyState wsBad)
    ∧ (nsOnlyState wsBad).ns.isSome = true
    ∧ (nsOnlyState wsBad).quota = none ∧ (nsOnlyState wsBad).adminRole = none
    ∧ (nsOnlyState wsBad).editorRole = none ∧ (nsOnlyState wsBad).viewerRole = none
    ∧ (nsOnlyState wsBad).adminRB = none ∧ (nsOnlyState wsBad).editorRB = none
    ∧ (nsOnlyState wsBad).viewerRB = none
    ∧ reconcile (some wsBad) (nsOnlyState wsBad)
        = some ⟨nsOnlyState wsBad, [], .err "cpu quantity parse error"⟩ := by decide

/-- C1 (amended): for a spec whose quota projection fails to parse, starting
from a state with no sub-resources only the namespace is ever created: the
first pass creates it, and every later pass surfaces the parse error at the
quota-creation step with no writes, so the quota, roles and bindings after it
in the fixed order are never created or corrected. -/
theorem malformed_quantity_only_namespace (w : WorkspaceSpec) (e : String)
    (hbad : resourceQuotaForWorkspace w = .error e) :
    ∀ n, runPasses w (n + 1) emptyState = some (nsOnlyState w)
      ∧ reconcile (some w) (nsOnlyState w) = some ⟨nsOnlyState w, [], .err e⟩
      ∧ (nsOnlyState w).quota = none ∧ (nsOnlyState w).adminRole = none
      ∧ (nsOnlyState w).editorRole = none ∧ (nsOnlyState w).viewerRole = none
      ∧ (nsOnlyState w).adminRB = none ∧ (nsOnlyState w).editorRB = none
      ∧ (nsOnlyState w).viewerRB = none := by
  have hstep : reconcile (some w) (nsOnlyState w) = some ⟨nsOnlyState w, [], .err e⟩ := by
    simp [reconcile, nsOnlyState, emptyState, hbad]
  have hfirst : reconcile (some w) emptyState
      = some ⟨nsOnlyState w, [WriteOp.createOp .nsK], .ok (some 3)⟩ := by
    simp [reconcile, emptyState, nsOnlyState]
  have hstay : ∀ m, runPasses w m (nsOnlyState w) = some (nsOnlyState w) := by
    intro m
    induction m with
    | zero => rfl
    | succ m ih =>
      simp only [runPasses, hstep]
      exact ih
  intro n
  refine ⟨?_, hstep, rfl, rfl, rfl, rfl, rfl, rfl, rfl⟩
  simp only [runPasses, hfirst]
  exact hstay n

theorem malformed_quantity_only_namespace_witness :
    resourceQuotaForWorkspace wsBad = .error "cpu quantity parse error"
    ∧ (runPasses wsBad (3 + 1) emptyState = some (nsOnlyState wsBad)
        ∧ reconcile (some wsBad) (nsOnlyState wsBad)
            = some ⟨nsOnlyState wsBad, [], .err "cpu quantity parse error"⟩
        ∧ (nsOnlyState wsBad).quota = none ∧ (nsOnlyState wsBad).adminRole = none
        ∧ (nsOnlyState wsBad).editorRole = none ∧ (nsOnlyState wsBad).viewerRole = none
        ∧ (nsOnlyState wsBad).adminRB = none ∧ (nsOnlyState wsBad).editorRB = none
        ∧ (nsOnlyState wsBad).viewerRB = none) :=
  ⟨by rfl, malformed_quantity_only_namespace wsBad "cpu quantity parse error" (by rfl) 3⟩

/-- C2 (counterexample): on the cold-start spec, after 5 passes the three
role bindings are still absent (each pass creates exactly one resource, so
8 passes are needed), refuting that 5 passes yield all 8 sub-resources. -/
theorem cold_start_five_passes_counterexample :
    runPasses wsTest 5 emptyState = some state5Test
    ∧ state5Test.adminRB = none ∧ state5Test.editorRB = none ∧ state5Test.viewerRB = none
    ∧ state5Test.ns.isSome = true ∧ state5Test.quota.isSome = true
    ∧ state5Test.adminRole.isSome = true ∧ state5Test.editorRole.isSome = true
    ∧ state5Test.viewerRole.isSome = true := by decide

/-- C2 (amended): on the cold-start spec, after 8 passes (one creation per
pass) all 8 sub-resources are present with names test, test-quota,
test-admin, test-editor, test-viewer, test-admin-rb, test-editor-rb,
test-viewer-rb, the quota hard limits are exactly the parsed 800m cpu,
256Mi memory and 10Gi requests-storage, and each binding's sole subject is
the corresponding spec user. -/
theorem cold_start_eight_passes :
    runPasses wsTest 8 emptyState = some stateColdTest
    ∧ stateColdTest.ns = some ⟨"test", [], [], ["kubernetes"]⟩
    ∧ stateColdTest.quota = some quotaTest
    ∧ quotaTest.name = "test-quota"
    ∧ stateColdTest.adminRole = some (adminRoleForWorkspace wsTest)
    ∧ (adminRoleForWorkspace wsTest).name = "test-admin"
    ∧ stateColdTest.editorRole = some (editorRoleForWorkspace wsTest)
    ∧ (editorRoleForWorkspace wsTest).name = "test-editor"
    ∧ stateColdTest.viewerRole = some (viewerRoleForWorkspace wsTest)
    ∧ (viewerRoleForWorkspace wsTest).name = "test-viewer"
    ∧ stateColdTest.adminRB = some (adminRoleBindingForWorkspace wsTest)
    ∧ (adminRoleBindingForWorkspace wsTest).name = "test-admin-rb"
    ∧ (adminRoleBindingForWorkspace wsTest).subjects = [⟨"User", "a", rbacAPIGroup⟩]
    ∧ stateColdTest.editorRB = some (editorRoleBindingForWorkspace wsTest)
    ∧ (editorRoleBindingForWorkspace wsTest).name = "test-editor-rb"
    ∧ (editorRoleBindingForWorkspace wsTest).subjects = [⟨"User", "b", rbacAPIGroup⟩]
    ∧ stateColdTest.viewerRB = some (viewerRoleBindingForWorkspace wsTest)
    ∧ (viewerRoleBindingForWorkspace wsTest).name = "test-viewer-rb"
    ∧ (viewerRoleBindingForWorkspace wsTest).subjects = [⟨"User", "c", rbacAPIGroup⟩]
    ∧ quotaTest.hardCpu = ⟨800, -3⟩ ∧ quotaTest.hardMemory = ⟨268435456, 0⟩
    ∧ quotaTest.hardStorage = ⟨10737418240, 0⟩
    ∧ parseQuantity "800m" = some quotaTest.hardCpu
    ∧ parseQuantity "256Mi" = some quotaTest.hardMemory
    ∧ parseQuantity "10Gi" = some quotaTest.hardStorage := by decide

/-- C3: whenever some managed sub-resource is absent, the pass creates
exactly the first absent one in the fixed check order (namespace, quota,
admin/editor/viewer role, admin/editor/viewer binding) with the projector's
canonical shape, issues no other write, and stops with a 3-second requeue.
The quota-projection hypothesis makes the projector's canonical shape exist
(an unparseable quantity is claim C1's territory). -/
theorem reconcile_creates_first_absent (w : WorkspaceSpec) (s : ClusterState) (k : ResKind)
    (rq : ResourceQuotaRes) (hrq : resourceQuotaForWorkspace w = .ok rq)
    (hfa : firstAbsent s = some k) :
    reconcile (some w) s = some ⟨createdState w s k, [WriteOp.createOp k], .ok (some 3)⟩ := by
  rcases hns : s.ns with _ | ns0
  · simp [firstAbsent, hns] at hfa
    subst hfa
    simp [reconcile, hns, createdState]
  · rcases hq : s.quota with _ | rq0
    · simp [firstAbsent, hns, hq] at hfa
      subst hfa
      simp [reconcile, hns, hq, hrq, createdState, Except.toOption]
    · rcases har : s.adminRole with _ | ar0
      · simp [firstAbsent, hns, hq, har] at hfa
        subst hfa
        simp [reconcile, hns, hq, har, createdState]
      · rcases her : s.editorRole with _ | er0
        · simp [firstAbsent, hns, hq, har, her] at hfa
          subst hfa
          simp [reconcile, hns, hq, har, her, createdState]
        · rcases hvr : s.viewerRole with _ | vr0
          · simp [firstAbsent, hns, hq, har, her, hvr] at hfa
            subst hfa
            simp [reconcile, hns, hq, har, her, hvr, createdState]
          · rcases harb : s.adminRB with _ | arb0
            · simp [firstAbsent, hns, hq, har, her, hvr, harb] at hfa
              subst hfa
              simp [reconcile, hns, hq, har, her, hvr, harb, createdState]
            · rcases herb : s.editorRB with _ | erb0
              · simp [firstAbsent, hns, hq, har, her, hvr, harb, herb] at hfa
                subst hfa
                simp [reconcile, hns, hq, har, her, hvr, harb, herb, createdState]
              · rcases hvrb : s.viewerRB with _ | vrb0
                · simp [firstAbsent, hns, hq, har, her, hvr, harb, herb, hvrb] at hfa
                  subst hfa
                  simp [reconcile, hns, hq, har, her, hvr, harb, herb, hvrb, createdState]
                · simp [firstAbsent, hns, hq, har, her, hvr, harb, herb, hvrb] at hfa

theorem reconcile_creates_first_absent_witness :
    reconcile (some wsTest) { stateColdTest with editorRole := none }
      = some ⟨createdState wsTest { stateColdTest with editorRole := none } .editorRoleK,
              [WriteOp.createOp .editorRoleK], .ok (some 3)⟩ :=
  reconcile_creates_first_absent wsTest { stateColdTest with editorRole := none }
    .editorRoleK quotaTest (by rfl) (by decide)

/-- C4: the label/annotation drift-correction loop (used by the pass at all
seven sync points: labels of namespace, quota and the three roles,
annotations of namespace and quota) replaces the live map wholesale with the
desired map and persists the resource as soon as one desired key is absent
live or mapped to a different value; when every desired key is present live
with the desired value it issues no update call, even when the live map
carries extra keys. -/
theorem syncMap_wholesale_replacement (desired live : LMap) :
    ((∃ kv ∈ desired, lmapGet live kv.1 ≠ some kv.2) →
      (syncMapStep desired live).1 = desired ∧ 0 < (syncMapStep desired live).2)
    ∧ ((∀ kv ∈ desired, lmapGet live kv.1 = some kv.2) →
      syncMapStep desired live = (live, 0)) := by
  constructor
  · intro hx
    have hpos : 0 < mismatchCount desired live := by
      unfold mismatchCount
      rw [List.countP_pos_iff]
      obtain ⟨kv, hkv, hne⟩ := hx
      exact ⟨kv, hkv, by simpa using hne⟩
    rw [syncMapStep_eq]
    simp [Nat.pos_iff_ne_zero.mp hpos, hpos]
  · intro hall
    exact syncMapStep_of_zero (mismatchCount_eq_zero.mpr hall)

theorem syncMap_wholesale_replacement_witness :
    ((syncMapStep [("a", "b")] [("a", "c"), ("x", "y")]).1 = [("a", "b")]
      ∧ 0 < (syncMapStep [("a", "b")] [("a", "c"), ("x", "y")]).2)
    ∧ syncMapStep [("a", "b")] [("a", "b"), ("x", "y")] = ([("a", "b"), ("x", "y")], 0) :=
  ⟨(syncMap_wholesale_replacement [("a", "b")] [("a", "c"), ("x", "y")]).1
      ⟨("a", "b"), by decide, by decide⟩,
   (syncMap_wholesale_replacement [("a", "b")] [("a", "b"), ("x", "y")]).2
      (by decide)⟩

/-- C6: quota drift correction compares quantities numerically, not as
strings: when the live hard limits are numerically equal to the parsed spec
quantities (even under a different representation) and the quota's labels and
annotations carry no drift, the pass leaves the quota object exactly as
observed and issues no update call on it. -/
theorem quantity_numeric_no_update (w : WorkspaceSpec) (s : ClusterState) (out : PassOutput)
    (rq0 : ResourceQuotaRes) (hq : s.quota = some rq0)
    (hall : allPresent s)
    (h1 : reconcile (some w) s = some out)
    (hL : mismatchCount w.labels rq0.labels = 0)
    (hA : mismatchCount w.annotations rq0.annotations = 0)
    (qm qc qd : Quantity)
    (hm : parseQuantity w.resources.memory = some qm)
    (hc : parseQuantity w.resources.cpu = some qc)
    (hd : parseQuantity w.resources.disk = some qd)
    (hcm : Quantity.cmp qm rq0.hardMemory = 0)
    (hcc : Quantity.cmp qc rq0.hardCpu = 0)
    (hcd : Quantity.cmp qd rq0.hardStorage = 0) :
    out.state.quota = some rq0 ∧ WriteOp.updateOp .quotaK ∉ out.writes := by
  unfold allPresent at hall
  obtain ⟨hns, -, har, her, hvr, harb, herb, hvrb⟩ := hall
  obtain ⟨ns0, hns⟩ := Option.isSome_iff_exists.mp hns
  obtain ⟨ar0, har⟩ := Option.isSome_iff_exists.mp har
  obtain ⟨er0, her⟩ := Option.isSome_iff_exists.mp her
  obtain ⟨vr0, hvr⟩ := Option.isSome_iff_exists.mp hvr
  obtain ⟨arb0, harb⟩ := Option.isSome_iff_exists.mp harb
  obtain ⟨erb0, herb⟩ := Option.isSome_iff_exists.mp herb
  obtain ⟨vrb0, hvrb⟩ := Option.isSome_iff_exists.mp hvrb
  simp only [reconcile, hns, hq, har, her, hvr, harb, herb, hvrb] at h1
  simp only [driftPhase, syncMapStep_of_zero hL] at h1
  simp only [syncMapStep_of_zero hA] at h1
  rcases hA1 : syncSubjectStep w.users.admin arb0 ResKind.adminRBK with _ | ⟨arb1, wA⟩
  · simp only [hA1] at h1
    exact Option.noConfusion h1
  · simp only [hA1] at h1
    rcases hE1 : syncSubjectStep w.users.editor erb0 ResKind.editorRBK with _ | ⟨erb1, wE⟩
    · simp only [hE1] at h1
      exact Option.noConfusion h1
    · simp only [hE1] at h1
      rcases hV1 : syncSubjectStep w.users.viewer vrb0 ResKind.viewerRBK with _ | ⟨vrb1, wV⟩
      · simp only [hV1] at h1
        exact Option.noConfusion h1
      · simp only [hV1] at h1
        simp only [hm, hc, hd, syncQuantityStep_of_zero hcm, syncQuantityStep_of_zero hcc,
          syncQuantityStep_of_zero hcd] at h1
        obtain ⟨sa, ra, hsa, harb1, hwA⟩ := syncSubjectStep_sound hA1
        obtain ⟨se, re, hse, herb1, hwE⟩ := syncSubjectStep_sound hE1
        obtain ⟨sv, rv, hsv, hvrb1, hwV⟩ := syncSubjectStep_sound hV1
        cases h1
        refine ⟨by simp, ?_⟩
        rcases hwA with rfl | rfl <;> rcases hwE with rfl | rfl <;> rcases hwV with rfl | rfl <;>
          simp [List.mem_append, List.mem_replicate]

theorem quantity_numeric_no_update_witness :
    (PassOutput.mk
        (canonicalState wsTest
          ⟨"test-quota", "test", [], [], ⟨8, -1⟩, ⟨268435456000, -3⟩, ⟨1073741824, 1⟩⟩)
        [] (.ok (some 3))).state.quota
      = some ⟨"test-quota", "test", [], [], ⟨8, -1⟩, ⟨268435456000, -3⟩, ⟨1073741824, 1⟩⟩
    ∧ WriteOp.updateOp .quotaK ∉
        (PassOutput.mk
          (canonicalState wsTest
            ⟨"test-quota", "test", [], [], ⟨8, -1⟩, ⟨268435456000, -3⟩, ⟨1073741824, 1⟩⟩)
          [] (.ok (some 3))).writes :=
  quantity_numeric_no_update wsTest
    (canonicalState wsTest
      ⟨"test-quota", "test", [], [], ⟨8, -1⟩, ⟨268435456000, -3⟩, ⟨1073741824, 1⟩⟩)
    (PassOutput.mk
      (canonicalState wsTest
        ⟨"test-quota", "test", [], [], ⟨8, -1⟩, ⟨268435456000, -3⟩, ⟨1073741824, 1⟩⟩)
      [] (.ok (some 3)))
    ⟨"test-quota", "test", [], [], ⟨8, -1⟩, ⟨268435456000, -3⟩, ⟨1073741824, 1⟩⟩
    rfl (by decide) (by decide) (by decide) (by decide)
    ⟨268435456, 0⟩ ⟨800, -3⟩ ⟨10737418240, 0⟩
    (by decide) (by decide) (by decide) (by decide) (by decide) (by decide)

theorem resourceQuotaForWorkspace_ok {w : WorkspaceSpec} {rq : ResourceQuotaRes}
    (h : resourceQuotaForWorkspace w = .ok rq) :
    parseQuantity w.resources.cpu = some rq.hardCpu
    ∧ parseQuantity w.resources.memory = some rq.hardMemory
    ∧ parseQuantity w.resources.disk = some rq.hardStorage
    ∧ rq.labels = w.labels ∧ rq.annotations = w.annotations := by
  unfold resourceQuotaForWorkspace resourceQuotaCPUForWorkspace
    resourceQuotaMemoryForWorkspace resourceQuotaStorageForWorkspace at h
  rcases hc : parseQuantity w.resources.cpu with _ | qc
  · simp only [hc] at h
    exact Except.noConfusion h
  · simp only [hc] at h
    rcases hm : parseQuantity w.resources.memory with _ | qm
    · simp only [hm] at h
      exact Except.noConfusion h
    · simp only [hm] at h
      rcases hd : parseQuantity w.resources.disk with _ | qd
      · simp only [hd] at h
        exact Except.noConfusion h
      · simp only [hd] at h
        cases h
        exact ⟨rfl, rfl, rfl, rfl, rfl⟩

/-- C7: from the fully-converged state, changing only the admin user and
running one pass rewrites just the admin RoleBinding's sole subject name to
the new user: its kind, apiGroup and RoleRef are kept, the editor and viewer
bindings and every other sub-resource are unchanged, and the only store
write is the one update of the admin binding. -/
theorem admin_user_change_updates_only_admin_subject (w : WorkspaceSpec)
    (rq : ResourceQuotaRes) (u2 : String)
    (hwfL : LMapWF w.labels) (hwfA : LMapWF w.annotations)
    (hrq : resourceQuotaForWorkspace w = .ok rq)
    (hne : u2 ≠ w.users.admin) :
    reconcile (some { w with users := { w.users with admin := u2 } }) (canonicalState w rq)
      = some ⟨{ canonicalState w rq with
                  adminRB := some { adminRoleBindingForWorkspace w with
                    subjects := [{ kind := "User", name := u2, apiGroup := rbacAPIGroup }] } },
              [WriteOp.updateOp .adminRBK], .ok (some 3)⟩ := by
  obtain ⟨hc, hm, hd, hlab, hann⟩ := resourceQuotaForWorkspace_ok hrq
  have hne' : w.users.admin ≠ u2 := fun h => hne h.symm
  simp only [reconcile, canonicalState]
  simp only [driftPhase, namespaceForWorkspace, adminRoleForWorkspace, editorRoleForWorkspace,
    viewerRoleForWorkspace, adminRoleBindingForWorkspace, editorRoleBindingForWorkspace,
    viewerRoleBindingForWorkspace, hlab, hann,
    syncMapStep_of_zero (mismatchCount_self hwfL), syncMapStep_of_zero (mismatchCount_self hwfA),
    syncSubjectStep, hne', if_false, if_pos rfl, hm, hc, hd,
    syncQuantityStep_of_zero (Quantity.cmp_self rq.hardMemory),
    syncQuantityStep_of_zero (Quantity.cmp_self rq.hardCpu),
    syncQuantityStep_of_zero (Quantity.cmp_self rq.hardStorage)]
  simp [canonicalState, adminRoleBindingForWorkspace]
  rw [← hlab, ← hann]

theorem admin_user_change_witness :
    reconcile (some { wsTest with users := { wsTest.users with admin := "zz" } })
        (canonicalState wsTest quotaTest)
      = some ⟨{ canonicalState wsTest quotaTest with
                  adminRB := some { adminRoleBindingForWorkspace wsTest with
                    subjects := [{ kind := "User", name := "zz", apiGroup := rbacAPIGroup }] } },
              [WriteOp.updateOp .adminRBK], .ok (some 3)⟩ :=
  admin_user_change_updates_only_admin_subject wsTest quotaTest "zz"
    (by decide) (by decide) (by rfl) (by decide)

theorem syncSubjectStep_eq_none {u : String} {b : RoleBindingRes} {k : ResKind}
    (h : syncSubjectStep u b k = none) : b.subjects = [] := by
  cases hs : b.subjects with
  | nil => rfl
  | cons s0 rest =>
    rw [syncSubjectStep_cons hs] at h
    by_cases hn : s0.name = u
    · rw [if_pos hn] at h
      exact Option.noConfusion h
    · rw [if_neg hn] at h
      exact Option.noConfusion h

theorem driftPhase_cases (w : WorkspaceSpec) (s : ClusterState)
    (ns0 : NamespaceRes) (rq0 : ResourceQuotaRes) (ar0 er0 vr0 : RoleRes)
    (arb0 erb0 vrb0 : RoleBindingRes) (out : PassOutput)
    (h : driftPhase w s ns0 rq0 ar0 er0 vr0 arb0 erb0 vrb0 = some out) :
    ∃ (ns2 : NamespaceRes) (rq5 : ResourceQuotaRes) (ar1 er1 vr1 : RoleRes)
      (arb1 erb1 vrb1 : RoleBindingRes),
      out.state = { s with ns := some ns2, quota := some rq5
                           adminRole := some ar1, editorRole := some er1
                           viewerRole := some vr1, adminRB := some arb1
                           editorRB := some erb1, viewerRB := some vrb1 }
      ∧ ar1.rules = ar0.rules ∧ er1.rules = er0.rules ∧ vr1.rules = vr0.rules
      ∧ ar1.annotations = ar0.annotations ∧ er1.annotations = er0.annotations
      ∧ vr1.annotations = vr0.annotations
      ∧ ar1.name = ar0.name ∧ er1.name = er0.name ∧ vr1.name = vr0.name
      ∧ ar1.nsName = ar0.nsName ∧ er1.nsName = er0.nsName ∧ vr1.nsName = vr0.nsName
      ∧ arb1.labels = arb0.labels ∧ erb1.labels = erb0.labels ∧ vrb1.labels = vrb0.labels
      ∧ arb1.annotations = arb0.annotations ∧ erb1.annotations = erb0.annotations
      ∧ vrb1.annotations = vrb0.annotations
      ∧ arb1.roleRef = arb0.roleRef ∧ erb1.roleRef = erb0.roleRef
      ∧ vrb1.roleRef = vrb0.roleRef
      ∧ arb1.name = arb0.name ∧ erb1.name = erb0.name ∧ vrb1.name = vrb0.name
      ∧ arb1.nsName = arb0.nsName ∧ erb1.nsName = erb0.nsName ∧ vrb1.nsName = vrb0.nsName
      ∧ (∃ s0 rest, arb0.subjects = s0 :: rest
          ∧ arb1.subjects = { s0 with name := w.users.admin } :: rest)
      ∧ (∃ s0 rest, erb0.subjects = s0 :: rest
          ∧ erb1.subjects = { s0 with name := w.users.editor } :: rest)
      ∧ (∃ s0 rest, vrb0.subjects = s0 :: rest
          ∧ vrb1.subjects = { s0 with name := w.users.viewer } :: rest)
      ∧ rq5.name = rq0.name ∧ rq5.nsName = rq0.nsName
      ∧ ns2.name = ns0.name ∧ ns2.finalizers = ns0.finalizers := by
  simp only [driftPhase] at h
  rcases hA : syncSubjectStep w.users.admin arb0 ResKind.adminRBK with _ | ⟨arb1, wA⟩
  · simp only [hA] at h
    exact Option.noConfusion h
  · simp only [hA] at h
    rcases hE : syncSubjectStep w.users.editor erb0 ResKind.editorRBK with _ | ⟨erb1, wE⟩
    · simp only [hE] at h
      exact Option.noConfusion h
    · simp only [hE] at h
      rcases hV : syncSubjectStep w.users.viewer vrb0 ResKind.viewerRBK with _ | ⟨vrb1, wV⟩
      · simp only [hV] at h
        exact Option.noConfusion h
      · simp only [hV] at h
        obtain ⟨sa, ra, hsa, harb1, hwA⟩ := syncSubjectStep_sound hA
        obtain ⟨se, re, hse, herb1, hwE⟩ := syncSubjectStep_sound hE
        obtain ⟨sv, rv, hsv, hvrb1, hwV⟩ := syncSubjectStep_sound hV
        subst harb1 herb1 hvrb1
        rcases hm : parseQuantity w.resources.memory with _ | qm
        · simp only [hm] at h
          cases h
          exact ⟨_, _, _, _, _, _, _, _, rfl, rfl, rfl, rfl, rfl, rfl, rfl, rfl, rfl, rfl,
            rfl, rfl, rfl, rfl, rfl, rfl, rfl, rfl, rfl, rfl, rfl, rfl, rfl, rfl, rfl, rfl, rfl, rfl,
            ⟨sa, ra, hsa, rfl⟩, ⟨se, re, hse, rfl⟩, ⟨sv, rv, hsv, rfl⟩, rfl, rfl, rfl, rfl⟩
        · simp only [hm] at h
          rcases hc : parseQuantity w.resources.cpu with _ | qc
          · simp only [hc] at h
            cases h
            exact ⟨_, _, _, _, _, _, _, _, rfl, rfl, rfl, rfl, rfl, rfl, rfl, rfl, rfl, rfl,
              rfl, rfl, rfl, rfl, rfl, rfl, rfl, rfl, rfl, rfl, rfl, rfl, rfl, rfl, rfl, rfl, rfl, rfl,
              ⟨sa, ra, hsa, rfl⟩, ⟨se, re, hse, rfl⟩, ⟨sv, rv, hsv, rfl⟩, rfl, rfl, rfl, rfl⟩
          · simp only [hc] at h
            rcases hd : parseQuantity w.resources.disk with _ | qd
            · simp only [hd] at h
              cases h
              exact ⟨_, _, _, _, _, _, _, _, rfl, rfl, rfl, rfl, rfl, rfl, rfl, rfl, rfl, rfl,
                rfl, rfl, rfl, rfl, rfl, rfl, rfl, rfl, rfl, rfl, rfl, rfl, rfl, rfl, rfl, rfl, rfl, rfl,
                ⟨sa, ra, hsa, rfl⟩, ⟨se, re, hse, rfl⟩, ⟨sv, rv, hsv, rfl⟩, rfl, rfl, rfl, rfl⟩
            · simp only [hd] at h
              cases h
              exact ⟨_, _, _, _, _, _, _, _, rfl, rfl, rfl, rfl, rfl, rfl, rfl, rfl, rfl, rfl,
                rfl, rfl, rfl, rfl, rfl, rfl, rfl, rfl, rfl, rfl, rfl, rfl, rfl, rfl, rfl, rfl, rfl, rfl,
                ⟨sa, ra, hsa, rfl⟩, ⟨se, re, hse, rfl⟩, ⟨sv, rv, hsv, rfl⟩, rfl, rfl, rfl, rfl⟩

theorem nsFrame_rfl (o : Option NamespaceRes) : nsFrame o o :=
  fun n0 h => ⟨n0, h, rfl, rfl⟩

theorem quotaFrame_rfl (o : Option ResourceQuotaRes) : quotaFrame o o :=
  fun q0 h => ⟨q0, h, rfl, rfl⟩

theorem roleFrame_rfl (o : Option RoleRes) : roleFrame o o :=
  fun r0 h => ⟨r0, h, rfl, rfl, rfl, rfl⟩

theorem rbFrame_rfl (u : String) (o : Option RoleBindingRes) : rbFrame u o o :=
  fun b0 h => ⟨b0, h, rfl, rfl, rfl, rfl, rfl, Or.inl rfl⟩

theorem nsFrame_none (o : Option NamespaceRes) : nsFrame none o :=
  fun _ h => Option.noConfusion h

theorem quotaFrame_none (o : Option ResourceQuotaRes) : quotaFrame none o :=
  fun _ h => Option.noConfusion h

theorem roleFrame_none (o : Option RoleRes) : roleFrame none o :=
  fun _ h => Option.noConfusion h

theorem rbFrame_none (u : String) (o : Option RoleBindingRes) : rbFrame u none o :=
  fun _ h => Option.noConfusion h

/-- C8: across any pass, an update call can only ever change the labels and
annotations of the namespace and quota, the labels of the three roles, the
first subject's name of the three bindings, and the quota's hard-limit
values.  In particular a Role's policy rules and namespace-derived identity,
a RoleBinding's labels, annotations and RoleRef, the quota's identity and the
namespace's finalizers are left exactly as observed. -/
theorem reconcile_update_frame (w : WorkspaceSpec) (s : ClusterState) (out : PassOutput)
    (h : reconcile (some w) s = some out) :
    nsFrame s.ns out.state.ns ∧ quotaFrame s.quota out.state.quota
    ∧ roleFrame s.adminRole out.state.adminRole
    ∧ roleFrame s.editorRole out.state.editorRole
    ∧ roleFrame s.viewerRole out.state.viewerRole
    ∧ rbFrame w.users.admin s.adminRB out.state.adminRB
    ∧ rbFrame w.users.editor s.editorRB out.state.editorRB
    ∧ rbFrame w.users.viewer s.viewerRB out.state.viewerRB := by
  rcases hns : s.ns with _ | ns0
  · simp only [reconcile, hns] at h
    cases h
    refine ⟨?_, ?_, ?_, ?_, ?_, ?_, ?_, ?_⟩ <;> (try simp only [hns]) <;>
      first
        | exact nsFrame_none _
        | exact nsFrame_rfl _
        | exact quotaFrame_rfl _
        | exact roleFrame_rfl _
        | exact rbFrame_rfl _ _
  · rcases hq : s.quota with _ | rq0
    · rcases hrq : resourceQuotaForWorkspace w with e | rq
      · simp only [reconcile, hns, hq, hrq] at h
        cases h
        refine ⟨?_, ?_, ?_, ?_, ?_, ?_, ?_, ?_⟩ <;> (try simp only [hns, hq]) <;>
          first
            | exact nsFrame_rfl _
            | exact quotaFrame_none _
            | exact quotaFrame_rfl _
            | exact roleFrame_rfl _
            | exact rbFrame_rfl _ _
      · simp only [reconcile, hns, hq, hrq] at h
        cases h
        refine ⟨?_, ?_, ?_, ?_, ?_, ?_, ?_, ?_⟩ <;> (try simp only [hns, hq]) <;>
          first
            | exact nsFrame_rfl _
            | exact quotaFrame_none _
            | exact quotaFrame_rfl _
            | exact roleFrame_rfl _
            | exact rbFrame_rfl _ _
    · rcases har : s.adminRole with _ | ar0
      · simp only [reconcile, hns, hq, har] at h
        cases h
        refine ⟨?_, ?_, ?_, ?_, ?_, ?_, ?_, ?_⟩ <;> (try simp only [hns, hq, har]) <;>
          first
            | exact nsFrame_rfl _
            | exact quotaFrame_rfl _
            | exact roleFrame_none _
            | exact roleFrame_rfl _
            | exact rbFrame_rfl _ _
      · rcases her : s.editorRole with _ | er0
        · simp only [reconcile, hns, hq, har, her] at h
          cases h
          refine ⟨?_, ?_, ?_, ?_, ?_, ?_, ?_, ?_⟩ <;> (try simp only [hns, hq, har, her]) <;>
            first
              | exact nsFrame_rfl _
              | exact quotaFrame_rfl _
              | exact roleFrame_none _
              | exact roleFrame_rfl _
              | exact rbFrame_rfl _ _
        · rcases hvr : s.viewerRole with _ | vr0
          · simp only [reconcile, hns, hq, har, her, hvr] at h
            cases h
            refine ⟨?_, ?_, ?_, ?_, ?_, ?_, ?_, ?_⟩ <;>
              (try simp only [hns, hq, har, her, hvr]) <;>
              first
                | exact nsFrame_rfl _
                | exact quotaFrame_rfl _
                | exact roleFrame_none _
                | exact roleFrame_rfl _
                | exact rbFrame_rfl _ _
          · rcases harb : s.adminRB with _ | arb0
            · simp only [reconcile, hns, hq, har, her, hvr, harb] at h
              cases h
              refine ⟨?_, ?_, ?_, ?_, ?_, ?_, ?_, ?_⟩ <;>
                (try simp only [hns, hq, har, her, hvr, harb]) <;>
                first
                  | exact nsFrame_rfl _
                  | exact quotaFrame_rfl _
                  | exact roleFrame_rfl _
                  | exact rbFrame_none _ _
                  | exact rbFrame_rfl _ _
            · rcases herb : s.editorRB with _ | erb0
              · simp only [reconcile, hns, hq, har, her, hvr, harb, herb] at h
                cases h
                refine ⟨?_, ?_, ?_, ?_, ?_, ?_, ?_, ?_⟩ <;>
                  (try simp only [hns, hq, har, her, hvr, harb, herb]) <;>
                  first
                    | exact nsFrame_rfl _
                    | exact quotaFrame_rfl _
                    | exact roleFrame_rfl _
                    | exact rbFrame_none _ _
                    | exact rbFrame_rfl _ _
              · rcases hvrb : s.viewerRB with _ | vrb0
                · simp only [reconcile, hns, hq, har, her, hvr, harb, herb, hvrb] at h
                  cases h
                  refine ⟨?_, ?_, ?_, ?_, ?_, ?_, ?_, ?_⟩ <;>
                    (try simp only [hns, hq, har, her, hvr, harb, herb, hvrb]) <;>
                    first
                      | exact nsFrame_rfl _
                      | exact quotaFrame_rfl _
                      | exact roleFrame_rfl _
                      | exact rbFrame_none _ _
                      | exact rbFrame_rfl _ _
                · simp only [reconcile, hns, hq, har, her, hvr, harb, herb, hvrb] at h
                  obtain ⟨ns2, rq5, ar1, er1, vr1, arb1, erb1, vrb1, hstate, hr1, hr2, hr3,
                    ha1, ha2, ha3, hn1, hn2, hn3, hns1, hns2, hns3, hbl1, hbl2, hbl3,
                    hba1, hba2, hba3, hrr1, hrr2, hrr3, hbn1, hbn2, hbn3, hbns1, hbns2, hbns3,
                    hsub1, hsub2, hsub3, hqn, hqns, hnsn, hnsf⟩ :=
                    driftPhase_cases w s ns0 rq0 ar0 er0 vr0 arb0 erb0 vrb0 out h
                  rw [hstate]
                  refine ⟨?_, ?_, ?_, ?_, ?_, ?_, ?_, ?_⟩
                  · intro n0 hn0
                    cases hn0
                    exact ⟨ns2, rfl, hnsn, hnsf⟩
                  · intro q0 hq0
                    cases hq0
                    exact ⟨rq5, rfl, hqn, hqns⟩
                  · intro r0 hr0
                    cases hr0
                    exact ⟨ar1, rfl, hr1, ha1, hn1, hns1⟩
                  · intro r0 hr0
                    cases hr0
                    exact ⟨er1, rfl, hr2, ha2, hn2, hns2⟩
                  · intro r0 hr0
                    cases hr0
                    exact ⟨vr1, rfl, hr3, ha3, hn3, hns3⟩
                  · intro b0 hb0
                    cases hb0
                    exact ⟨arb1, rfl, hbl1, hba1, hrr1, hbn1, hbns1, Or.inr hsub1⟩
                  · intro b0 hb0
                    cases hb0
                    exact ⟨erb1, rfl, hbl2, hba2, hrr2, hbn2, hbns2, Or.inr hsub2⟩
                  · intro b0 hb0
                    cases hb0
                    exact ⟨vrb1, rfl, hbl3, hba3, hrr3, hbn3, hbns3, Or.inr hsub3⟩

theorem reconcile_update_frame_witness :
    nsFrame stateColdTest.ns
        (PassOutput.mk stateColdTest [] (RecResult.ok (some 3))).state.ns
    ∧ quotaFrame stateColdTest.quota
        (PassOutput.mk stateColdTest [] (RecResult.ok (some 3))).state.quota
    ∧ roleFrame stateColdTest.adminRole
        (PassOutput.mk stateColdTest [] (RecResult.ok (some 3))).state.adminRole
    ∧ roleFrame stateColdTest.editorRole
        (PassOutput.mk stateColdTest [] (RecResult.ok (some 3))).state.editorRole
    ∧ roleFrame stateColdTest.viewerRole
        (PassOutput.mk stateColdTest [] (RecResult.ok (some 3))).state.viewerRole
    ∧ rbFrame wsTest.users.admin stateColdTest.adminRB
        (PassOutput.mk stateColdTest [] (RecResult.ok (some 3))).state.adminRB
    ∧ rbFrame wsTest.users.editor stateColdTest.editorRB
        (PassOutput.mk stateColdTest [] (RecResult.ok (some 3))).state.editorRB
    ∧ rbFrame wsTest.users.viewer stateColdTest.viewerRB
        (PassOutput.mk stateColdTest [] (RecResult.ok (some 3))).state.viewerRB :=
  reconcile_update_frame wsTest stateColdTest
    (PassOutput.mk stateColdTest [] (RecResult.ok (some 3))) (by decide)

/-- C9: the reconciliation core never deletes anything.  A pass whose spec is
absent terminates successfully with no writes, no error and no requeue delay,
leaving the state untouched; and in any pass whatsoever, every sub-resource
present before the pass is still present after it — absence is only ever
answered by recreation, never by removal of siblings or of the spec. -/
theorem reconcile_never_deletes :
    (∀ s : ClusterState, reconcile none s = some ⟨s, [], .ok none⟩)
    ∧ (∀ (ws : Option WorkspaceSpec) (s : ClusterState) (out : PassOutput),
        reconcile ws s = some out → presMono s out.state) := by
  constructor
  · intro s
    rfl
  · intro ws s out h
    rcases ws with _ | w
    · simp only [reconcile] at h
      cases h
      exact ⟨id, id, id, id, id, id, id, id⟩
    · rcases hns : s.ns with _ | ns0
      · simp only [reconcile, hns] at h
        cases h
        refine ⟨?_, ?_, ?_, ?_, ?_, ?_, ?_, ?_⟩ <;> first | exact id | exact fun _ => rfl
      · rcases hq : s.quota with _ | rq0
        · rcases hrq : resourceQuotaForWorkspace w with e | rq
          · simp only [reconcile, hns, hq, hrq] at h
            cases h
            exact ⟨id, id, id, id, id, id, id, id⟩
          · simp only [reconcile, hns, hq, hrq] at h
            cases h
            refine ⟨?_, ?_, ?_, ?_, ?_, ?_, ?_, ?_⟩ <;> first | exact id | exact fun _ => rfl
        · rcases har : s.adminRole with _ | ar0
          · simp only [reconcile, hns, hq, har] at h
            cases h
            refine ⟨?_, ?_, ?_, ?_, ?_, ?_, ?_, ?_⟩ <;> first | exact id | exact fun _ => rfl
          · rcases her : s.editorRole with _ | er0
            · simp only [reconcile, hns, hq, har, her] at h
              cases h
              refine ⟨?_, ?_, ?_, ?_, ?_, ?_, ?_, ?_⟩ <;> first | exact id | exact fun _ => rfl
            · rcases hvr : s.viewerRole with _ | vr0
              · simp only [reconcile, hns, hq, har, her, hvr] at h
                cases h
                refine ⟨?_, ?_, ?_, ?_, ?_, ?_, ?_, ?_⟩ <;> first | exact id | exact fun _ => rfl
              · rcases harb : s.adminRB with _ | arb0
                · simp only [reconcile, hns, hq, har, her, hvr, harb] at h
                  cases h
                  refine ⟨?_, ?_, ?_, ?_, ?_, ?_, ?_, ?_⟩ <;> first | exact id | exact fun _ => rfl
                · rcases herb : s.editorRB with _ | erb0
                  · simp only [reconcile, hns, hq, har, her, hvr, harb, herb] at h
                    cases h
                    refine ⟨?_, ?_, ?_, ?_, ?_, ?_, ?_, ?_⟩ <;> first | exact id | exact fun _ => rfl
                  · rcases hvrb : s.viewerRB with _ | vrb0
                    · simp only [reconcile, hns, hq, har, her, hvr, harb, herb, hvrb] at h
                      cases h
                      refine ⟨?_, ?_, ?_, ?_, ?_, ?_, ?_, ?_⟩ <;> first | exact id | exact fun _ => rfl
                    · simp only [reconcile, hns, hq, har, her, hvr, harb, herb, hvrb] at h
                      obtain ⟨ns2, rq5, ar1, er1, vr1, arb1, erb1, vrb1, hstate, -⟩ :=
                        driftPhase_cases w s ns0 rq0 ar0 er0 vr0 arb0 erb0 vrb0 out h
                      rw [hstate]
                      exact ⟨fun _ => rfl, fun _ => rfl, fun _ => rfl, fun _ => rfl,
                        fun _ => rfl, fun _ => rfl, fun _ => rfl, fun _ => rfl⟩

theorem reconcile_never_deletes_witness :
    reconcile none stateColdTest = some ⟨stateColdTest, [], .ok none⟩
    ∧ presMono (nsOnlyState wsTest)
        (PassOutput.mk
          { nsOnlyState wsTest with quota := some quotaTest }
          [WriteOp.createOp .quotaK] (.ok (some 3))).state :=
  ⟨reconcile_never_deletes.1 stateColdTest,
   reconcile_never_deletes.2 (some wsTest) (nsOnlyState wsTest)
     (PassOutput.mk { nsOnlyState wsTest with quota := some quotaTest }
       [WriteOp.createOp .quotaK] (.ok (some 3))) (by decide)⟩

/-- C10: subject drift correction reads and writes the first element of each
live binding's subject list with no length check.  The projector always
emits exactly one subject, so the step is well-defined on states it created;
the pass hits the out-of-bounds read (modelled as the `none` outcome) exactly
when it reaches the drift tail — all eight resources present — and some live
binding's subject list has been emptied, a state an external actor can
produce (third conjunct: a concrete such state is reached). -/
theorem subject_sync_panic :
    (∀ w : WorkspaceSpec, (adminRoleBindingForWorkspace w).subjects.length = 1
      ∧ (editorRoleBindingForWorkspace w).subjects.length = 1
      ∧ (viewerRoleBindingForWorkspace w).subjects.length = 1)
    ∧ (∀ (w : WorkspaceSpec) (s : ClusterState),
        reconcile (some w) s = none →
          allPresent s
          ∧ (rbEmptySubjects s.adminRB ∨ rbEmptySubjects s.editorRB
              ∨ rbEmptySubjects s.viewerRB))
    ∧ reconcile (some wsTest)
        { stateColdTest with
            adminRB := some { adminRoleBindingForWorkspace wsTest with subjects := [] } }
      = none := by
  refine ⟨fun w => ⟨rfl, rfl, rfl⟩, ?_, by decide⟩
  intro w s h
  rcases hns : s.ns with _ | ns0
  · simp only [reconcile, hns] at h
    exact Option.noConfusion h
  · rcases hq : s.quota with _ | rq0
    · rcases hrq : resourceQuotaForWorkspace w with e | rq
      · simp only [reconcile, hns, hq, hrq] at h
        exact Option.noConfusion h
      · simp only [reconcile, hns, hq, hrq] at h
        exact Option.noConfusion h
    · rcases har : s.adminRole with _ | ar0
      · simp only [reconcile, hns, hq, har] at h
        exact Option.noConfusion h
      · rcases her : s.editorRole with _ | er0
        · simp only [reconcile, hns, hq, har, her] at h
          exact Option.noConfusion h
        · rcases hvr : s.viewerRole with _ | vr0
          · simp only [reconcile, hns, hq, har, her, hvr] at h
            exact Option.noConfusion h
          · rcases harb : s.adminRB with _ | arb0
            · simp only [reconcile, hns, hq, har, her, hvr, harb] at h
              exact Option.noConfusion h
            · rcases herb : s.editorRB with _ | erb0
              · simp only [reconcile, hns, hq, har, her, hvr, harb, herb] at h
                exact Option.noConfusion h
              · rcases hvrb : s.viewerRB with _ | vrb0
                · simp only [reconcile, hns, hq, har, her, hvr, harb, herb, hvrb] at h
                  exact Option.noConfusion h
                · simp only [reconcile, hns, hq, har, her, hvr, harb, herb, hvrb,
                    driftPhase] at h
                  have hall : allPresent s := by
                    unfold allPresent
                    rw [hns, hq, har, her, hvr, harb, herb, hvrb]
                    exact ⟨rfl, rfl, rfl, rfl, rfl, rfl, rfl, rfl⟩
                  refine ⟨hall, ?_⟩
                  rcases hA : syncSubjectStep w.users.admin arb0 ResKind.adminRBK
                    with _ | ⟨arb1, wA⟩
                  · exact Or.inl ⟨arb0, rfl, syncSubjectStep_eq_none hA⟩
                  · simp only [hA] at h
                    rcases hE : syncSubjectStep w.users.editor erb0 ResKind.editorRBK
                      with _ | ⟨erb1, wE⟩
                    · exact Or.inr (Or.inl ⟨erb0, rfl, syncSubjectStep_eq_none hE⟩)
                    · simp only [hE] at h
                      rcases hV : syncSubjectStep w.users.viewer vrb0 ResKind.viewerRBK
                        with _ | ⟨vrb1, wV⟩
                      · exact Or.inr (Or.inr ⟨vrb0, rfl, syncSubjectStep_eq_none hV⟩)
                      · simp only [hV] at h
                        rcases hm : parseQuantity w.resources.memory with _ | qm
                        · simp only [hm] at h
                          exact Option.noConfusion h
                        · simp only [hm] at h
                          rcases hc : parseQuantity w.resources.cpu with _ | qc
                          · simp only [hc] at h
                            exact Option.noConfusion h
                          · simp only [hc] at h
                            rcases hd : parseQuantity w.resources.disk with _ | qd
                            · simp only [hd] at h
                              exact Option.noConfusion h
                            · simp only [hd] at h
                              exact Option.noConfusion h

theorem subject_sync_panic_witness :
    allPresent { stateColdTest with
        adminRB := some { adminRoleBindingForWorkspace wsTest with subjects := [] } }
    ∧ (rbEmptySubjects
          { stateColdTest with
              adminRB := some { adminRoleBindingForWorkspace wsTest with
                subjects := [] } }.adminRB
        ∨ rbEmptySubjects
            { stateColdTest with
                adminRB := some { adminRoleBindingForWorkspace wsTest with
                  subjects := [] } }.editorRB
        ∨ rbEmptySubjects
            { stateColdTest with
                adminRB := some { adminRoleBindingForWorkspace wsTest with
                  subjects := [] } }.viewerRB) :=
  subject_sync_panic.2.1 wsTest
    { stateColdTest with
        adminRB := some { adminRoleBindingForWorkspace wsTest with subjects := [] } }
    (by decide)
